import Mathlib

/-
Shallow embedding of `garmin_db_config_manager.py` from samashti/GarminDB.

The module reads a static configuration object (`GarminDBConfig`) and the
process environment (scratch temp directory, user home directory), derives
filesystem path strings, and optionally creates directories.

Modelling choices:
- Python dict indexing `d[k]` raises `KeyError` when the key is absent; it is
  modelled by `dictIndex`, returning `Except PyErr` with `PyErr.keyError`.
  `d.get(k)` returns `None` when absent; it is modelled by `List.lookup`,
  returning `Option`.
- The filesystem is modelled as the list `FS` of paths that exist.
  `os.path.exists` is membership; `os.makedirs` (with its default
  `exist_ok=False`) inserts the target path and its ancestor paths when the
  target is absent, and raises `FileExistsError` when the target already
  exists. Functions with the creation side effect thread `FS` explicitly and
  return `Except PyErr (String × FS)`; functions without it are pure string
  functions of the configuration, which is how "no filesystem access" and
  "no side effects" are captured.
- `os.sep` is the POSIX separator `/`; `str(year)` is `toString` on `Int`.
-/

namespace GarminDBSpec

/-- Python exceptions observable in this module. -/
inductive PyErr where
  | keyError : PyErr
  | fileExistsError : PyErr
deriving DecidableEq, Repr

/-- The `directories` section of `GarminDBConfig`: one entry per key the
module reads. All keys are present in the repository's static config class. -/
structure Dirs where
  base_dir : String
  relative_to_home : Bool
  fit_file_dir : String
  monitoring_file_dir : String
  activities_file_dir : String
  sleep_files_dir : String
  weight_files_dir : String
  rhr_files_dir : String
  fitbit_file_dir : String
  mshealth_file_dir : String
  db_dir : String
deriving DecidableEq, Repr

/-- The `device_directories` section of `GarminDBConfig`. -/
structure DeviceDirs where
  base : String
  settings : String
  monitoring : String
  sleep : String
  activities : String
deriving DecidableEq, Repr

/-- The static configuration object. The `db`, `config`, `graphs` and
`checkup` sections are modelled as association lists because the module's
accessors look keys up in them dynamically (and two of them via `.get`,
which must tolerate absent keys). -/
structure GarminDBConfig where
  db : List (String × String)
  directories : Dirs
  config : List (String × String)
  device_directories : DeviceDirs
  graphs : List (String × List (String × String))
  checkup : List (String × String)

/-- The module's environment: the configuration, the scratch directory
created by `tempfile.mkdtemp()` at import time, and the user home directory
returned by `os.path.expanduser` applied to the tilde. -/
structure Env where
  cfg : GarminDBConfig
  temp_dir : String
  home : String

/-- `os.sep` on POSIX. -/
def sep : String := "/"

/-- Python dict indexing `d[k]`: the value when present, `KeyError` when
absent. -/
def dictIndex (d : List (String × α)) (k : String) : Except PyErr α :=
  match d.lookup k with
  | some v => Except.ok v
  | none => Except.error PyErr.keyError

/-- `get_db_type`: `GarminDBConfig.db['type']`. -/
def get_db_type (e : Env) : Except PyErr String :=
  dictIndex e.cfg.db "type"

/-- `get_db_user`: `GarminDBConfig.db['user']`. -/
def get_db_user (e : Env) : Except PyErr String :=
  dictIndex e.cfg.db "user"

/-- `get_db_password`: `GarminDBConfig.db['password']`. -/
def get_db_password (e : Env) : Except PyErr String :=
  dictIndex e.cfg.db "password"

/-- `get_db_host`: `GarminDBConfig.db['host']`. -/
def get_db_host (e : Env) : Except PyErr String :=
  dictIndex e.cfg.db "host"

/-- The filesystem state: the list of paths that currently exist. -/
abbrev FS := List String

/-- `os.path.exists`. -/
def pathExists (fs : FS) (p : String) : Bool :=
  fs.contains p

/-- Split a character list on the separator character (structural version
of splitting a path string on `os.sep`). -/
def splitSep : List Char → List String
  | [] => [""]
  | c :: cs =>
    if c = '/' then "" :: splitSep cs
    else
      match splitSep cs with
      | [] => [String.mk [c]]
      | s :: rest => String.mk (c :: s.data) :: rest

/-- Join path components with the separator. -/
def joinSep : List String → String
  | [] => ""
  | [s] => s
  | s :: rest => s ++ sep ++ joinSep rest

/-- The proper ancestor paths of `p` along the separator, as created by
`os.makedirs` for missing intermediate directories. -/
def parentPaths (p : String) : List String :=
  (List.range ((splitSep p.data).length - 1)).map
    (fun i => joinSep ((splitSep p.data).take (i + 1)))

/-- `os.makedirs(p)` with the default `exist_ok=False`: raises
`FileExistsError` when the target exists, otherwise creates the target and
its missing ancestors. -/
def makedirs (fs : FS) (p : String) : Except PyErr FS :=
  if fs.contains p then Except.error PyErr.fileExistsError
  else Except.ok (p :: parentPaths p ++ fs)

/-- `_create_dir_if_needed`: existence check, then `os.makedirs` when the
check says the directory is absent; returns the directory argument. -/
def _create_dir_if_needed (fs : FS) (dir : String) : Except PyErr (String × FS) :=
  if pathExists fs dir then Except.ok (dir, fs)
  else
    match makedirs fs dir with
    | Except.ok fs2 => Except.ok (dir, fs2)
    | Except.error err => Except.error err

/-- `_create_dir_if_needed` under interference: the existence check reads the
filesystem snapshot `fs1`; another actor may then change the filesystem to
`fs2` before `os.makedirs` runs on it. `_create_dir_if_needed fs dir` is the
interference-free special case `fs1 = fs2 = fs`. -/
def _create_dir_if_needed_race (fs1 fs2 : FS) (dir : String) : Except PyErr (String × FS) :=
  if pathExists fs1 dir then Except.ok (dir, fs2)
  else
    match makedirs fs2 dir with
    | Except.ok fs3 => Except.ok (dir, fs3)
    | Except.error err => Except.error err

/-- `get_base_dir(test_dir)`. -/
def get_base_dir (e : Env) (test_dir : Bool) : String :=
  let base := e.cfg.directories.base_dir
  if test_dir then e.temp_dir ++ sep ++ base
  else if e.cfg.directories.relative_to_home then e.home ++ sep ++ base
  else base

/-- `get_fit_files_dir(test_dir)`. -/
def get_fit_files_dir (e : Env) (test_dir : Bool) : String :=
  get_base_dir e test_dir ++ sep ++ e.cfg.directories.fit_file_dir

/-- `get_or_create_fit_files_dir(test_dir)`. -/
def get_or_create_fit_files_dir (e : Env) (fs : FS) (test_dir : Bool) : Except PyErr (String × FS) :=
  _create_dir_if_needed fs (get_fit_files_dir e test_dir)

/-- `get_monitoring_base_dir(test_dir)`. -/
def get_monitoring_base_dir (e : Env) (test_dir : Bool) : String :=
  get_fit_files_dir e test_dir ++ sep ++ e.cfg.directories.monitoring_file_dir

/-- `get_or_create_monitoring_base_dir(test_dir)`. -/
def get_or_create_monitoring_base_dir (e : Env) (fs : FS) (test_dir : Bool) : Except PyErr (String × FS) :=
  _create_dir_if_needed fs (get_monitoring_base_dir e test_dir)

/-- `get_monitoring_dir(year, test_dir)`. -/
def get_monitoring_dir (e : Env) (year : Int) (test_dir : Bool) : String :=
  get_monitoring_base_dir e test_dir ++ sep ++ toString year

/-- `get_or_create_monitoring_dir(year, test_dir)`. -/
def get_or_create_monitoring_dir (e : Env) (fs : FS) (year : Int) (test_dir : Bool) : Except PyErr (String × FS) :=
  _create_dir_if_needed fs (get_monitoring_dir e year test_dir)

/-- `get_activities_dir(test_dir)`. -/
def get_activities_dir (e : Env) (test_dir : Bool) : String :=
  get_fit_files_dir e test_dir ++ sep ++ e.cfg.directories.activities_file_dir

/-- `get_or_create_activities_dir(test_dir)`. -/
def get_or_create_activities_dir (e : Env) (fs : FS) (test_dir : Bool) : Except PyErr (String × FS) :=
  _create_dir_if_needed fs (get_activities_dir e test_dir)

/-- `get_sleep_dir(test_dir)`. -/
def get_sleep_dir (e : Env) (test_dir : Bool) : String :=
  get_base_dir e test_dir ++ sep ++ e.cfg.directories.sleep_files_dir

/-- `get_or_create_sleep_dir(test_dir)`. -/
def get_or_create_sleep_dir (e : Env) (fs : FS) (test_dir : Bool) : Except PyErr (String × FS) :=
  _create_dir_if_needed fs (get_sleep_dir e test_dir)

/-- `get_weight_dir(test_dir)`: the body calls `get_base_dir()` with no
argument, i.e. with the default `test_dir=False`, ignoring its own
`test_dir` parameter. -/
def get_weight_dir (e : Env) (test_dir : Bool) : String :=
  get_base_dir e false ++ sep ++ e.cfg.directories.weight_files_dir

/-- `get_or_create_weight_dir(test_dir)`. -/
def get_or_create_weight_dir (e : Env) (fs : FS) (test_dir : Bool) : Except PyErr (String × FS) :=
  _create_dir_if_needed fs (get_weight_dir e test_dir)

/-- `get_rhr_dir(test_dir)`. -/
def get_rhr_dir (e : Env) (test_dir : Bool) : String :=
  get_base_dir e test_dir ++ sep ++ e.cfg.directories.rhr_files_dir

/-- `get_or_create_rhr_dir(test_dir)`. -/
def get_or_create_rhr_dir (e : Env) (fs : FS) (test_dir : Bool) : Except PyErr (String × FS) :=
  _create_dir_if_needed fs (get_rhr_dir e test_dir)

/-- `get_fitbit_dir(test_dir)`. -/
def get_fitbit_dir (e : Env) (test_dir : Bool) : String :=
  get_base_dir e test_dir ++ sep ++ e.cfg.directories.fitbit_file_dir

/-- `get_or_create_fitbit_dir(test_dir)`. -/
def get_or_create_fitbit_dir (e : Env) (fs : FS) (test_dir : Bool) : Except PyErr (String × FS) :=
  _create_dir_if_needed fs (get_fitbit_dir e test_dir)

/-- `get_mshealth_dir(test_dir)`. -/
def get_mshealth_dir (e : Env) (test_dir : Bool) : String :=
  get_base_dir e test_dir ++ sep ++ e.cfg.directories.mshealth_file_dir

/-- `get_or_create_mshealth_dir(test_dir)`. -/
def get_or_create_mshealth_dir (e : Env) (fs : FS) (test_dir : Bool) : Except PyErr (String × FS) :=
  _create_dir_if_needed fs (get_mshealth_dir e test_dir)

/-- `get_db_dir(test_db)`: roots at `temp_dir` itself when `test_db` is
true, else at `get_base_dir()`, and always runs `_create_dir_if_needed`. -/
def get_db_dir (e : Env) (fs : FS) (test_db : Bool) : Except PyErr (String × FS) :=
  let base := if test_db then e.temp_dir else get_base_dir e false
  _create_dir_if_needed fs (base ++ sep ++ e.cfg.directories.db_dir)

/-- Modelled from the spec: the `DbParams` value object imported from the
external `utilities` module (not part of this repository's sources) is "an
opaque, immutable value object" holding "either a SQLite file-path or a
MySQL host/user/password/type tuple"; its constructor accepts whichever of
the keyword fields the caller passes, the rest staying absent. -/
structure DbParams where
  db_type : String
  db_path : Option String
  db_username : Option String
  db_password : Option String
  db_host : Option String
deriving DecidableEq, Repr

/-- `get_db_params(test_db)`: builds the params dict from `get_db_type()`
and, per branch, `get_db_dir(test_db)` or the three MySQL scalar getters,
then constructs `DbParams` from it. -/
def get_db_params (e : Env) (fs : FS) (test_db : Bool) : Except PyErr (DbParams × FS) :=
  match get_db_type e with
  | Except.error err => Except.error err
  | Except.ok db_type =>
    if db_type = "sqlite" then
      match get_db_dir e fs test_db with
      | Except.ok (db_path, fs2) =>
        Except.ok (⟨db_type, some db_path, none, none, none⟩, fs2)
      | Except.error err => Except.error err
    else if db_type = "mysql" then
      match get_db_user e, get_db_password e, get_db_host e with
      | Except.ok u, Except.ok pw, Except.ok hst =>
        Except.ok (⟨"mysql", none, some u, some pw, some hst⟩, fs)
      | Except.error err, _, _ => Except.error err
      | _, Except.error err, _ => Except.error err
      | _, _, Except.error err => Except.error err
    else
      Except.ok (⟨db_type, none, none, none, none⟩, fs)

/-- `get_metric`: `GarminDBConfig.config['metric']`. -/
def get_metric (e : Env) : Except PyErr String :=
  dictIndex e.cfg.config "metric"

/-- `device_settings_dir(mount_dir)`. -/
def device_settings_dir (e : Env) (mount_dir : String) : String :=
  mount_dir ++ sep ++ e.cfg.device_directories.base ++ sep ++ e.cfg.device_directories.settings

/-- `device_monitoring_dir(mount_dir)`. -/
def device_monitoring_dir (e : Env) (mount_dir : String) : String :=
  mount_dir ++ sep ++ e.cfg.device_directories.base ++ sep ++ e.cfg.device_directories.monitoring

/-- `device_sleep_dir(mount_dir)`. -/
def device_sleep_dir (e : Env) (mount_dir : String) : String :=
  mount_dir ++ sep ++ e.cfg.device_directories.base ++ sep ++ e.cfg.device_directories.sleep

/-- `device_activities_dir(mount_dir)`. -/
def device_activities_dir (e : Env) (mount_dir : String) : String :=
  mount_dir ++ sep ++ e.cfg.device_directories.base ++ sep ++ e.cfg.device_directories.activities

/-- `graphs(key)`: `GarminDBConfig.graphs.get(key)`. -/
def graphs (e : Env) (key : String) : Option (List (String × String)) :=
  e.cfg.graphs.lookup key

/-- `graphs_activity_config(activity, key)`. -/
def graphs_activity_config (e : Env) (activity key : String) : Option String :=
  match graphs e activity with
  | some a => a.lookup key
  | none => none

/-- `checkup(item)`: `GarminDBConfig.checkup.get(item)`. -/
def checkup (e : Env) (item : String) : Option String :=
  e.cfg.checkup.lookup item

end GarminDBSpec

namespace GarminDBSpec

/-- Sample `directories` section used to evaluate the accessors. -/
def sampleDirs : Dirs :=
  ⟨"HealthData", true, "FitFiles", "Monitoring", "Activities", "Sleep",
   "Weight", "RHR", "FitBitFiles", "MSHealth", "DBs"⟩

/-- Sample `directories` section whose base is not home-relative. -/
def sampleDirsAbs : Dirs :=
  ⟨"/data/HealthData", false, "FitFiles", "Monitoring", "Activities", "Sleep",
   "Weight", "RHR", "FitBitFiles", "MSHealth", "DBs"⟩

/-- Sample `device_directories` section. -/
def sampleDevice : DeviceDirs :=
  ⟨"GARMIN", "SETTINGS", "MONITOR", "SLEEP", "ACTIVITY"⟩

/-- Sample environment with a SQLite database configuration. -/
def envSqlite : Env :=
  ⟨⟨[("type", "sqlite"), ("user", "u"), ("password", "pw"), ("host", "hst")],
    sampleDirs, [("metric", "true")], sampleDevice,
    [("steps", [("size", "8")])], [("look_back_days", "90")]⟩,
   "/tmp/scratch", "/home/alice"⟩

/-- Sample environment with a MySQL database configuration. -/
def envMysql : Env :=
  ⟨⟨[("type", "mysql"), ("user", "u"), ("password", "pw"), ("host", "hst")],
    sampleDirs, [("metric", "true")], sampleDevice, [], []⟩,
   "/tmp/scratch", "/home/alice"⟩

/-- Sample environment with an unrecognized database type. -/
def envOther : Env :=
  ⟨⟨[("type", "postgres")], sampleDirs, [], sampleDevice, [], []⟩,
   "/tmp/scratch", "/home/alice"⟩

/-- Sample environment whose dynamic sections are all empty. -/
def envEmpty : Env :=
  ⟨⟨[], sampleDirs, [], sampleDevice, [], []⟩, "/tmp/scratch", "/home/alice"⟩

/-- Sample environment with a base directory not relative to home. -/
def envAbs : Env :=
  ⟨⟨[("type", "sqlite")], sampleDirsAbs, [], sampleDevice, [], []⟩,
   "/tmp/scratch", "/home/alice"⟩

theorem create_dir_if_needed_ok (fs : FS) (d : String) :
    ∃ fs2, _create_dir_if_needed fs d = Except.ok (d, fs2)
      ∧ fs2.contains d = true
      ∧ _create_dir_if_needed fs2 d = Except.ok (d, fs2) := by
  by_cases hm : d ∈ fs
  · refine ⟨fs, ?_, ?_, ?_⟩
    · simp [_create_dir_if_needed, pathExists, hm]
    · simp [hm]
    · simp [_create_dir_if_needed, pathExists, hm]
  · refine ⟨d :: parentPaths d ++ fs, ?_, ?_, ?_⟩
    · simp [_create_dir_if_needed, pathExists, makedirs, hm]
    · simp
    · simp [_create_dir_if_needed, pathExists]

theorem create_dir_if_needed_fst (fs : FS) (d : String) :
    ∃ fs2, _create_dir_if_needed fs d = Except.ok (d, fs2) := by
  obtain ⟨fs2, h1, -, -⟩ := create_dir_if_needed_ok fs d
  exact ⟨fs2, h1⟩

theorem create_dir_if_needed_eq_race (fs : FS) (d : String) :
    _create_dir_if_needed fs d = _create_dir_if_needed_race fs fs d := rfl

end GarminDBSpec

namespace GarminDBSpec

/-- Claim C3: for every value of the `test_dir` argument, `get_weight_dir`
resolves its base via `get_base_dir` with no test-mode flag: the result
equals `get_base_dir(false)` joined with the configured `weight_files_dir`
name, so the `test_dir` argument never affects the result. -/
theorem get_weight_dir_ignores_test_dir (e : Env) (test_dir : Bool) :
    get_weight_dir e test_dir
        = get_base_dir e false ++ sep ++ e.cfg.directories.weight_files_dir
      ∧ ∀ t2 : Bool, get_weight_dir e test_dir = get_weight_dir e t2 :=
  ⟨rfl, fun _ => rfl⟩

/-- Claim C4: for every configured `base_dir` B and home-relative flag H,
`get_base_dir(false)` equals `home/B` when H is true and B verbatim when H
is false, while `get_base_dir(true)` equals `scratch/B` regardless of H. -/
theorem get_base_dir_cases (e : Env) :
    (e.cfg.directories.relative_to_home = true →
        get_base_dir e false = e.home ++ sep ++ e.cfg.directories.base_dir)
      ∧ (e.cfg.directories.relative_to_home = false →
        get_base_dir e false = e.cfg.directories.base_dir)
      ∧ get_base_dir e true = e.temp_dir ++ sep ++ e.cfg.directories.base_dir := by
  refine ⟨fun h => ?_, fun h => ?_, rfl⟩ <;> simp [get_base_dir, h]

/-- Witness for C4, at a home-relative and a non-home-relative sample
configuration. -/
theorem get_base_dir_cases_witness :
    get_base_dir envSqlite false = "/home/alice/HealthData"
      ∧ get_base_dir envAbs false = "/data/HealthData"
      ∧ get_base_dir envSqlite true = "/tmp/scratch/HealthData" :=
  ⟨((get_base_dir_cases envSqlite).1 rfl).trans rfl,
   ((get_base_dir_cases envAbs).2.1 rfl).trans rfl,
   (get_base_dir_cases envSqlite).2.2.trans rfl⟩

/-- Claim C9: for every mount-point string (trailing separators included),
`device_settings_dir(mount_dir)` is the pure string composition of
`mount_dir`, the configured device base sub-path and the settings sub-path;
the function takes no filesystem state, so no filesystem access and no
validation of the mount point occur. -/
theorem device_settings_dir_pure_join (e : Env) (mount_dir : String) :
    device_settings_dir e mount_dir
      = mount_dir ++ sep ++ e.cfg.device_directories.base
          ++ sep ++ e.cfg.device_directories.settings := rfl

/-- Claim C5: `get_db_dir(true)` roots at the scratch directory directly
(`scratch/db_dir`, bypassing `get_base_dir`), and for every value of
`test_db` the call performs the create-directory side effect: the returned
filesystem contains the returned path. -/
theorem get_db_dir_scratch_and_creates (e : Env) (fs : FS) :
    (∃ fs2, get_db_dir e fs true
        = Except.ok (e.temp_dir ++ sep ++ e.cfg.directories.db_dir, fs2)
      ∧ fs2.contains (e.temp_dir ++ sep ++ e.cfg.directories.db_dir) = true)
      ∧ ∀ test_db : Bool, ∃ d fs2, get_db_dir e fs test_db = Except.ok (d, fs2)
          ∧ fs2.contains d = true := by
  constructor
  · obtain ⟨fs2, h1, h2, -⟩ :=
      create_dir_if_needed_ok fs (e.temp_dir ++ sep ++ e.cfg.directories.db_dir)
    exact ⟨fs2, h1, h2⟩
  · intro test_db
    obtain ⟨fs2, h1, h2, -⟩ := create_dir_if_needed_ok fs
      ((if test_db then e.temp_dir else get_base_dir e false)
        ++ sep ++ e.cfg.directories.db_dir)
    exact ⟨_, fs2, h1, h2⟩

end GarminDBSpec

namespace GarminDBSpec

/-- Claim C7: for every category getter with a paired get-or-create variant,
after a call to the variant the returned directory exists in the returned
filesystem, and a second call in sequence returns without error and leaves
the filesystem unchanged. -/
theorem get_or_create_dirs_idempotent (e : Env) (fs : FS) (t : Bool) (year : Int) :
    (∃ d fs2, get_or_create_fit_files_dir e fs t = Except.ok (d, fs2)
      ∧ fs2.contains d = true
      ∧ get_or_create_fit_files_dir e fs2 t = Except.ok (d, fs2))
    ∧ (∃ d fs2, get_or_create_monitoring_base_dir e fs t = Except.ok (d, fs2)
      ∧ fs2.contains d = true
      ∧ get_or_create_monitoring_base_dir e fs2 t = Except.ok (d, fs2))
    ∧ (∃ d fs2, get_or_create_monitoring_dir e fs year t = Except.ok (d, fs2)
      ∧ fs2.contains d = true
      ∧ get_or_create_monitoring_dir e fs2 year t = Except.ok (d, fs2))
    ∧ (∃ d fs2, get_or_create_activities_dir e fs t = Except.ok (d, fs2)
      ∧ fs2.contains d = true
      ∧ get_or_create_activities_dir e fs2 t = Except.ok (d, fs2))
    ∧ (∃ d fs2, get_or_create_sleep_dir e fs t = Except.ok (d, fs2)
      ∧ fs2.contains d = true
      ∧ get_or_create_sleep_dir e fs2 t = Except.ok (d, fs2))
    ∧ (∃ d fs2, get_or_create_weight_dir e fs t = Except.ok (d, fs2)
      ∧ fs2.contains d = true
      ∧ get_or_create_weight_dir e fs2 t = Except.ok (d, fs2))
    ∧ (∃ d fs2, get_or_create_rhr_dir e fs t = Except.ok (d, fs2)
      ∧ fs2.contains d = true
      ∧ get_or_create_rhr_dir e fs2 t = Except.ok (d, fs2))
    ∧ (∃ d fs2, get_or_create_fitbit_dir e fs t = Except.ok (d, fs2)
      ∧ fs2.contains d = true
      ∧ get_or_create_fitbit_dir e fs2 t = Except.ok (d, fs2))
    ∧ (∃ d fs2, get_or_create_mshealth_dir e fs t = Except.ok (d, fs2)
      ∧ fs2.contains d = true
      ∧ get_or_create_mshealth_dir e fs2 t = Except.ok (d, fs2)) := by
  refine ⟨?_, ?_, ?_, ?_, ?_, ?_, ?_, ?_, ?_⟩ <;>
    first
    | (obtain ⟨fs2, h1, h2, h3⟩ := create_dir_if_needed_ok fs (get_fit_files_dir e t)
       exact ⟨_, fs2, h1, h2, h3⟩)
    | (obtain ⟨fs2, h1, h2, h3⟩ := create_dir_if_needed_ok fs (get_monitoring_base_dir e t)
       exact ⟨_, fs2, h1, h2, h3⟩)
    | (obtain ⟨fs2, h1, h2, h3⟩ := create_dir_if_needed_ok fs (get_monitoring_dir e year t)
       exact ⟨_, fs2, h1, h2, h3⟩)
    | (obtain ⟨fs2, h1, h2, h3⟩ := create_dir_if_needed_ok fs (get_activities_dir e t)
       exact ⟨_, fs2, h1, h2, h3⟩)
    | (obtain ⟨fs2, h1, h2, h3⟩ := create_dir_if_needed_ok fs (get_sleep_dir e t)
       exact ⟨_, fs2, h1, h2, h3⟩)
    | (obtain ⟨fs2, h1, h2, h3⟩ := create_dir_if_needed_ok fs (get_weight_dir e t)
       exact ⟨_, fs2, h1, h2, h3⟩)
    | (obtain ⟨fs2, h1, h2, h3⟩ := create_dir_if_needed_ok fs (get_rhr_dir e t)
       exact ⟨_, fs2, h1, h2, h3⟩)
    | (obtain ⟨fs2, h1, h2, h3⟩ := create_dir_if_needed_ok fs (get_fitbit_dir e t)
       exact ⟨_, fs2, h1, h2, h3⟩)
    | (obtain ⟨fs2, h1, h2, h3⟩ := create_dir_if_needed_ok fs (get_mshealth_dir e t)
       exact ⟨_, fs2, h1, h2, h3⟩)

/-- Claim C10: every get-or-create variant returns exactly the string its
paired plain getter returns for the same arguments, because the creation
helper returns its path argument unchanged. -/
theorem get_or_create_dirs_return_getter (e : Env) (fs : FS) (t : Bool) (year : Int) :
    (∃ fs2, get_or_create_fit_files_dir e fs t = Except.ok (get_fit_files_dir e t, fs2))
    ∧ (∃ fs2, get_or_create_monitoring_base_dir e fs t
        = Except.ok (get_monitoring_base_dir e t, fs2))
    ∧ (∃ fs2, get_or_create_monitoring_dir e fs year t
        = Except.ok (get_monitoring_dir e year t, fs2))
    ∧ (∃ fs2, get_or_create_activities_dir e fs t = Except.ok (get_activities_dir e t, fs2))
    ∧ (∃ fs2, get_or_create_sleep_dir e fs t = Except.ok (get_sleep_dir e t, fs2))
    ∧ (∃ fs2, get_or_create_weight_dir e fs t = Except.ok (get_weight_dir e t, fs2))
    ∧ (∃ fs2, get_or_create_rhr_dir e fs t = Except.ok (get_rhr_dir e t, fs2))
    ∧ (∃ fs2, get_or_create_fitbit_dir e fs t = Except.ok (get_fitbit_dir e t, fs2))
    ∧ (∃ fs2, get_or_create_mshealth_dir e fs t = Except.ok (get_mshealth_dir e t, fs2)) :=
  ⟨create_dir_if_needed_fst fs (get_fit_files_dir e t),
   create_dir_if_needed_fst fs (get_monitoring_base_dir e t),
   create_dir_if_needed_fst fs (get_monitoring_dir e year t),
   create_dir_if_needed_fst fs (get_activities_dir e t),
   create_dir_if_needed_fst fs (get_sleep_dir e t),
   create_dir_if_needed_fst fs (get_weight_dir e t),
   create_dir_if_needed_fst fs (get_rhr_dir e t),
   create_dir_if_needed_fst fs (get_fitbit_dir e t),
   create_dir_if_needed_fst fs (get_mshealth_dir e t)⟩

end GarminDBSpec

namespace GarminDBSpec

/-- Counterexample to claim C2: on a configuration whose `db` and `config`
sections lack the requested keys, every scalar getter raises `KeyError`
instead of returning an absent-value marker (the bodies index the section
dicts directly, unlike `graphs`/`checkup` which use `.get`). -/
theorem scalar_getters_missing_counterexample :
    get_db_type envEmpty = Except.error PyErr.keyError
      ∧ get_db_user envEmpty = Except.error PyErr.keyError
      ∧ get_db_password envEmpty = Except.error PyErr.keyError
      ∧ get_db_host envEmpty = Except.error PyErr.keyError
      ∧ get_metric envEmpty = Except.error PyErr.keyError :=
  ⟨rfl, rfl, rfl, rfl, rfl⟩

/-- Claim C2 as amended: for every configuration in which the requested key
is absent, each of `get_db_type`, `get_db_user`, `get_db_password`,
`get_db_host` and `get_metric` raises `KeyError` (direct dict indexing)
rather than returning an absent-value marker; the lookups have no side
effects. -/
theorem scalar_getters_raise_on_missing (e : Env)
    (h1 : e.cfg.db.lookup "type" = none)
    (h2 : e.cfg.db.lookup "user" = none)
    (h3 : e.cfg.db.lookup "password" = none)
    (h4 : e.cfg.db.lookup "host" = none)
    (h5 : e.cfg.config.lookup "metric" = none) :
    get_db_type e = Except.error PyErr.keyError
      ∧ get_db_user e = Except.error PyErr.keyError
      ∧ get_db_password e = Except.error PyErr.keyError
      ∧ get_db_host e = Except.error PyErr.keyError
      ∧ get_metric e = Except.error PyErr.keyError := by
  refine ⟨?_, ?_, ?_, ?_, ?_⟩ <;>
    simp [get_db_type, get_db_user, get_db_password, get_db_host, get_metric,
      dictIndex, h1, h2, h3, h4, h5]

/-- Witness for the amended C2, at the sample configuration with empty
dynamic sections. -/
theorem scalar_getters_raise_on_missing_witness :
    get_db_type envEmpty = Except.error PyErr.keyError
      ∧ get_db_user envEmpty = Except.error PyErr.keyError
      ∧ get_db_password envEmpty = Except.error PyErr.keyError
      ∧ get_db_host envEmpty = Except.error PyErr.keyError
      ∧ get_metric envEmpty = Except.error PyErr.keyError :=
  scalar_getters_raise_on_missing envEmpty rfl rfl rfl rfl rfl

/-- Claim C8: for every key absent from the `graphs` section and every item
absent from the `checkup` section, `graphs(key)` and `checkup(item)` return
the absent-value marker; being total `Option`-valued lookups via `.get`,
they never raise. -/
theorem graphs_checkup_missing_returns_none (e : Env) (key item : String)
    (hg : e.cfg.graphs.lookup key = none)
    (hc : e.cfg.checkup.lookup item = none) :
    graphs e key = none ∧ checkup e item = none :=
  ⟨hg, hc⟩

/-- Witness for C8: nonexistent keys on the sample configuration. -/
theorem graphs_checkup_missing_returns_none_witness :
    graphs envSqlite "nonexistent_key" = none
      ∧ checkup envSqlite "nonexistent_item" = none :=
  graphs_checkup_missing_returns_none envSqlite "nonexistent_key" "nonexistent_item"
    rfl rfl

/-- Claim C6 fails on the code: in the interleaving in which another actor
creates the directory after the existence check has returned false,
`os.makedirs` (called without `exist_ok`) raises `FileExistsError`; the
helper does not treat "already exists" as success. Evaluated at the failing
input: check snapshot `[]`, creation snapshot `["d1"]`, target `"d1"`. -/
theorem create_dir_race_raises :
    _create_dir_if_needed_race [] ["d1"] "d1"
      = Except.error PyErr.fileExistsError := rfl

end GarminDBSpec

namespace GarminDBSpec

/-- Claim C1: `get_db_params(test_db)` branches on the configured database
type. With type `sqlite`, the result holds only the type and a path equal to
the `get_db_dir(test_db)` result (no username/password/host). With type
`mysql`, the result holds type, username, password and host from the four
scalar getters, the filesystem is untouched, and `test_db` has no effect.
With any other configured type, the result holds only the type field and no
error is raised. -/
theorem get_db_params_branches (e : Env) (fs : FS) (test_db : Bool) :
    (e.cfg.db.lookup "type" = some "sqlite" →
      ∀ db_path fs2, get_db_dir e fs test_db = Except.ok (db_path, fs2) →
        get_db_params e fs test_db
          = Except.ok (⟨"sqlite", some db_path, none, none, none⟩, fs2))
    ∧ (∀ u pw hst, e.cfg.db.lookup "type" = some "mysql" →
        e.cfg.db.lookup "user" = some u →
        e.cfg.db.lookup "password" = some pw →
        e.cfg.db.lookup "host" = some hst →
        get_db_params e fs test_db
            = Except.ok (⟨"mysql", none, some u, some pw, some hst⟩, fs)
          ∧ ∀ t2 : Bool, get_db_params e fs t2 = get_db_params e fs test_db)
    ∧ (∀ ty, e.cfg.db.lookup "type" = some ty → ty ≠ "sqlite" → ty ≠ "mysql" →
        get_db_params e fs test_db = Except.ok (⟨ty, none, none, none, none⟩, fs)) := by
  refine ⟨?_, ?_, ?_⟩
  · intro hty db_path fs2 hdir
    simp [get_db_params, get_db_type, dictIndex, hty, hdir]
  · intro u pw hst hty hu hpw hhst
    constructor
    · simp [get_db_params, get_db_type, get_db_user, get_db_password, get_db_host,
        dictIndex, hty, hu, hpw, hhst]
    · intro t2
      simp [get_db_params, get_db_type, get_db_user, get_db_password, get_db_host,
        dictIndex, hty, hu, hpw, hhst]
  · intro ty hty hns hnm
    simp [get_db_params, get_db_type, dictIndex, hty, hns, hnm]

end GarminDBSpec

namespace GarminDBSpec

/-- Witness for C1, exercising all three branches on sample configurations:
SQLite (path rooted at the scratch directory for `test_db=true`), MySQL, and
an unrecognized type. -/
theorem get_db_params_branches_witness :
    get_db_params envSqlite [] true
        = Except.ok (⟨"sqlite", some "/tmp/scratch/DBs", none, none, none⟩,
            ["/tmp/scratch/DBs", "", "/tmp", "/tmp/scratch"])
      ∧ get_db_params envMysql [] true
        = Except.ok (⟨"mysql", none, some "u", some "pw", some "hst"⟩, [])
      ∧ get_db_params envOther [] true
        = Except.ok (⟨"postgres", none, none, none, none⟩, []) :=
  ⟨(get_db_params_branches envSqlite [] true).1 rfl "/tmp/scratch/DBs"
      ["/tmp/scratch/DBs", "", "/tmp", "/tmp/scratch"] rfl,
   ((get_db_params_branches envMysql [] true).2.1 "u" "pw" "hst" rfl rfl rfl rfl).1,
   (get_db_params_branches envOther [] true).2.2 "postgres" rfl
     (by decide) (by decide)⟩

end GarminDBSpec
